import Mathlib

/-!
Verification of the controller-remapper addon (`src/__init__.py`).

The Python source is shallowly embedded below:

* Python strings are Lean `String`s; `str.split("+")`, `str.strip()` and
  `str.lower()` are modelled character-listwise (`pySplitPlus`, `pyStrip`,
  `pyLower`).  The combo and identifier strings handled by the program are
  ASCII, and the models agree with Python on ASCII input.
* The mutable dicts `self.mappings` (str -> str) and `self.last_state`
  (str -> bool) are association lists; `dict.get(k)`, `dict.get(k, False)`,
  `dict[k] = v` and `dict.pop(k, None)` become `lookupMap`, `getState`,
  `setState` and `popState`.
* Python truthiness tests (`if button_name and button_state:`,
  `if key_combo:`, `if key:`, `if key_code:`) are modelled explicitly:
  a string is truthy iff nonempty, an int iff nonzero, `None` is falsy.
* The joystick axis computation `value / 32767.0` compares an IEEE double
  against `-0.5` / `0.5`.  It is modelled with exact rationals: for every
  int16 `value` the exact quotient `value / 32767` is at distance at least
  `1/65534` from `±1/2`, about `1.5e-5`, vastly above the rounding error of
  one double division (about `1e-16`), so the double comparison and the
  rational comparison agree on every representable input.
* Side effects (the Qt key events handed to the focused widget, and the
  combos handed to `send_key_event`) are returned as values: record
  processing returns the list of combos passed to `send_key_event`, and
  `sendKeyEvent` returns the synthetic press/release description it would
  deliver, or `none` when the code sends nothing.
-/

/-- Characters removed by Python `str.strip()` (the ASCII whitespace set;
the strings this program strips are ASCII). -/
def pyIsSpace (c : Char) : Bool :=
  c = ' ' ∨ c = '\t' ∨ c = '\n' ∨ c = '\r' ∨ c = '\x0b' ∨ c = '\x0c'

/-- Python `str.split(sep)` for a one-character separator, on char lists:
splits at every occurrence of `sep`, keeping empty fields. -/
def splitOnChar (sep : Char) : List Char → List (List Char)
  | [] => [[]]
  | c :: cs =>
    match splitOnChar sep cs with
    | [] => [[]]
    | t :: ts => if c = sep then [] :: t :: ts else (c :: t) :: ts

/-- Python `combo.split("+")`. -/
def pySplitPlus (s : String) : List String :=
  (splitOnChar '+' s.data).map fun l => ⟨l⟩

/-- Python `str.strip()`: drop leading and trailing whitespace. -/
def pyStrip (s : String) : String :=
  ⟨(((s.data.dropWhile pyIsSpace).reverse.dropWhile pyIsSpace).reverse)⟩

/-- Python `str.lower()` (ASCII). -/
def pyLower (s : String) : String :=
  ⟨s.data.map Char.toLower⟩

/-- Python `str.upper()` (ASCII). -/
def pyUpper (s : String) : String :=
  ⟨s.data.map Char.toUpper⟩

/-- `part.strip().lower()` applied to one combo token
(src/__init__.py line 127). -/
def normTok (s : String) : String :=
  pyLower (pyStrip s)

/-- Does a normalised token name a modifier
(src/__init__.py lines 128-133)? -/
def isModTok (p : String) : Bool :=
  p = "ctrl" ∨ p = "control" ∨ p = "shift" ∨ p = "alt"

/-- The canonical modifier name appended for a modifier token:
`"control"` is recorded as `"ctrl"`, the others as themselves. -/
def modName (p : String) : String :=
  if p = "control" then "ctrl" else p

/-- One step of the loop body of `parse_key_combination`
(src/__init__.py lines 126-135): the accumulator is the pair
`(modifiers, key)`. -/
def parseStep (acc : List String × Option String) (part : String) :
    List String × Option String :=
  let p := normTok part
  if p = "ctrl" ∨ p = "control" then (acc.1 ++ ["ctrl"], acc.2)
  else if p = "shift" then (acc.1 ++ ["shift"], acc.2)
  else if p = "alt" then (acc.1 ++ ["alt"], acc.2)
  else (acc.1, some p)

/-- `ControllerRemapper.parse_key_combination`
(src/__init__.py lines 122-136): split on `+`, strip and lowercase each
token, append recognised modifiers to the `modifiers` list, and let every
non-modifier token overwrite `key` (initially `None`). -/
def parseKeyCombination (combo : String) : List String × Option String :=
  (pySplitPlus combo).foldl parseStep ([], none)

/-- Lookup in an association list, leftmost binding first: Python
`dict.get(k)` (the dicts built by this program bind each key once). -/
def lookupMap {α : Type} (m : List (String × α)) (k : String) : Option α :=
  match m.find? fun p => p.1 = k with
  | some p => some p.2
  | none => none

/-- `getattr(Qt, f"Key_{key.upper()}", None)` for a single-character key
(src/__init__.py line 146): the only single-character `Key_...` attribute
names on `Qt` are `Key_A`..`Key_Z` (0x41..0x5A) and `Key_0`..`Key_9`
(0x30..0x39), whose values equal the character code; every other
character yields no attribute, hence `None`. -/
def singleCharQtKey (s : String) : Option Nat :=
  match s.data with
  | [c] =>
    if ('A' ≤ c ∧ c ≤ 'Z') ∨ ('0' ≤ c ∧ c ≤ '9') then some c.toNat else none
  | _ => none

/-- The `special_keys` dict of `get_key_code`
(src/__init__.py lines 149-177), with the PyQt6 `Qt.Key` values. -/
def specialKeys : List (String × Nat) :=
  [("space", 0x20), ("return", 0x01000004), ("enter", 0x01000005),
   ("backspace", 0x01000003), ("delete", 0x01000007),
   ("escape", 0x01000000), ("tab", 0x01000001),
   ("up", 0x01000013), ("down", 0x01000015),
   ("left", 0x01000012), ("right", 0x01000014),
   ("home", 0x01000010), ("end", 0x01000011),
   ("pageup", 0x01000016), ("pagedown", 0x01000017),
   ("f1", 0x01000030), ("f2", 0x01000031), ("f3", 0x01000032),
   ("f4", 0x01000033), ("f5", 0x01000034), ("f6", 0x01000035),
   ("f7", 0x01000036), ("f8", 0x01000037), ("f9", 0x01000038),
   ("f10", 0x01000039), ("f11", 0x0100003A), ("f12", 0x0100003B)]

/-- `ControllerRemapper.get_key_code` (src/__init__.py lines 138-179):
single-character keys go through `getattr(Qt, f"Key_{key.upper()}")`,
longer keys through `special_keys.get(key.lower())`; both fall back to
`None`. -/
def getKeyCode (key : String) : Option Nat :=
  if key.length = 1 then singleCharQtKey (pyUpper key)
  else lookupMap specialKeys (pyLower key)

/-- The synthetic press/release pair `send_key_event` delivers to the
focused widget: the modifier flags OR-ed into `modifier_flags` and the
resolved `key_code` (src/__init__.py lines 187-209). -/
structure SynthKeyEvent where
  ctrl : Bool
  shift : Bool
  alt : Bool
  keyCode : Nat
deriving DecidableEq

/-- `ControllerRemapper.send_key_event` (src/__init__.py lines 181-209),
as the event it would deliver (if a widget has focus), or `none` when the
code returns without sending: empty `key_combo` (`if not key_combo:`),
`key` of `None` or `""` (`if key:`), unresolved key code of `None` or `0`
(`if key_code:`). -/
def sendKeyEvent (keyCombo : String) : Option SynthKeyEvent :=
  if keyCombo = "" then none
  else
    let parsed := parseKeyCombination keyCombo
    let modifiers := parsed.1
    match parsed.2 with
    | none => none
    | some key =>
      if key = "" then none
      else
        match getKeyCode key with
        | none => none
        | some keyCode =>
          if keyCode = 0 then none
          else
            some ⟨decide ("ctrl" ∈ modifiers), decide ("shift" ∈ modifiers),
                  decide ("alt" ∈ modifiers), keyCode⟩

/-- `DEFAULT_MAPPINGS` (src/__init__.py lines 28-43). -/
def DEFAULT_MAPPINGS : List (String × String) :=
  [("A", " "), ("B", "Return"), ("X", "z"), ("Y", "x"),
   ("LEFT", "Left"), ("RIGHT", "Right"), ("UP", "Up"), ("DOWN", "Down"),
   ("LEFT_SHOULDER", "Ctrl+Shift+z"), ("RIGHT_SHOULDER", "Ctrl+z"),
   ("START", "Return"), ("SELECT", "Backspace"),
   ("LEFT_TRIGGER", "Ctrl+Shift+z"), ("RIGHT_TRIGGER", "Ctrl+y")]

/-- `JS_EVENT_BUTTON` (src/__init__.py line 45). -/
def JS_EVENT_BUTTON : Nat := 0x01

/-- `JS_EVENT_AXIS` (src/__init__.py line 46). -/
def JS_EVENT_AXIS : Nat := 0x02

/-- `JS_EVENT_INIT` (src/__init__.py line 47). -/
def JS_EVENT_INIT : Nat := 0x80

/-- `EVENT_SIZE = struct.calcsize("@IhBB")` (src/__init__.py lines 68-69):
4-byte `I` + 2-byte `h` + two 1-byte `B`s, natively aligned, is 8 bytes. -/
def EVENT_SIZE : Nat := 8

/-- `CONTROLLER_BUTTONS` (src/__init__.py lines 51-64), as an association
list keyed by the button number. -/
def controllerButtons : List (Nat × String) :=
  [(0, "A"), (1, "B"), (2, "X"), (3, "Y"),
   (4, "LEFT_SHOULDER"), (5, "RIGHT_SHOULDER"),
   (6, "SELECT"), (7, "START"),
   (8, "LEFT_STICK"), (9, "RIGHT_STICK"),
   (10, "LEFT_TRIGGER"), (11, "RIGHT_TRIGGER")]

/-- `CONTROLLER_BUTTONS.get(button_num)` (src/__init__.py line 266). -/
def lookupButton (n : Nat) : Option String :=
  match controllerButtons.find? fun p => p.1 = n with
  | some p => some p.2
  | none => none

/-- One decoded joystick event record, the result of
`struct.unpack("@IhBB", data)` (src/__init__.py line 261):
unsigned 32-bit timestamp, signed 16-bit value, two unsigned bytes. -/
structure JsRecord where
  timestamp : Nat
  value : Int
  eventType : Nat
  number : Nat
deriving DecidableEq

/-- `self.last_state`: a str -> bool dict, as an association list with
each key bound at most once (binding order is irrelevant to the program,
which only reads it through `dict.get(key, False)`). -/
abbrev StateMap : Type := List (String × Bool)

/-- `self.last_state.get(key, False)` (src/__init__.py line 269 etc.). -/
def getState (st : StateMap) (k : String) : Bool :=
  match List.find? (fun p => p.1 = k) st with
  | some p => p.2
  | none => false

/-- `self.last_state[key] = b` (src/__init__.py line 279 etc.): bind `k`
to `b`, dropping any previous binding. -/
def setState (st : StateMap) (k : String) (b : Bool) : StateMap :=
  (k, b) :: List.filter (fun p => ¬ p.1 = k) st

/-- `self.last_state.pop(key, None)` (src/__init__.py line 305 etc.):
drop the binding of `k` if present. -/
def popState (st : StateMap) (k : String) : StateMap :=
  List.filter (fun p => ¬ p.1 = k) st

/-- Python truthiness of `self.mappings.get(name)`
(`if key_combo:`, src/__init__.py lines 276, 292 etc.): a combo is
dispatched only when the lookup hits and the combo string is nonempty. -/
def truthyCombo : Option String → Option String
  | some s => if s = "" then none else some s
  | none => none

/-- The list of combos `send_key_event` is called with for one lookup:
one combo when it is present and truthy, nothing otherwise. -/
def dispatchOf (mappings : List (String × String)) (name : String) :
    List String :=
  match truthyCombo (lookupMap mappings name) with
  | some c => [c]
  | none => []

/-- `event_type & JS_EVENT_BUTTON` as a truth value
(src/__init__.py line 263). -/
def hasButtonBit (t : Nat) : Bool :=
  t &&& JS_EVENT_BUTTON ≠ 0

/-- `event_type & JS_EVENT_AXIS` as a truth value
(src/__init__.py line 281). -/
def hasAxisBit (t : Nat) : Bool :=
  t &&& JS_EVENT_AXIS ≠ 0

/-- `axis_value = value / 32767.0` (src/__init__.py line 283), as the
exact rational `value / 32767` (see the header note: the double and the
exact quotient land on the same side of every threshold for all int16
values). `Rat.divInt` is rational division written on the numerator and
denominator, so kernel evaluation works; `axisNormalized_eq_div` below
restates it as division in `ℚ`. -/
def axisNormalized (v : Int) : ℚ :=
  Rat.divInt v 32767

/-- The literal `-0.5` of src/__init__.py line 286. -/
def negHalf : ℚ :=
  Rat.divInt (-1) 2

/-- The literal `0.5` of src/__init__.py line 295. -/
def posHalf : ℚ :=
  Rat.divInt 1 2

theorem axisNormalized_eq_div (v : Int) :
    axisNormalized v = (v : ℚ) / 32767 := by
  simp [axisNormalized, Rat.divInt_eq_div]

theorem negHalf_eq : negHalf = -(1/2 : ℚ) := by
  norm_num [negHalf, Rat.divInt_eq_div]

theorem posHalf_eq : posHalf = (1/2 : ℚ) := by
  norm_num [posHalf, Rat.divInt_eq_div]

/-- The branch of `process_controller_input` handling one direction of
one axis (src/__init__.py lines 286-294 and its three twins): dispatch
the mapped combo on a rising edge of `stateKey`, then set the flag. -/
def axisDirStep (mappings : List (String × String)) (st : StateMap)
    (stateKey mapKey : String) : StateMap × List String :=
  let ds := if getState st stateKey then [] else dispatchOf mappings mapKey
  (setState st stateKey true, ds)

/-- The body of the `while True:` loop of
`ControllerRemapper.process_controller_input` for one decoded record
(src/__init__.py lines 261-329): returns the updated `last_state`
together with the list of combos passed to `send_key_event`. -/
def processRecord (mappings : List (String × String)) (st : StateMap)
    (r : JsRecord) : StateMap × List String :=
  if hasButtonBit r.eventType then
    let buttonState := decide (r.value ≠ 0)
    let key := "button_" ++ toString r.number
    let ds :=
      match lookupButton r.number with
      | some name =>
        if name ≠ "" ∧ buttonState ∧ ¬ getState st key then
          dispatchOf mappings name
        else []
      | none => []
    (setState st key buttonState, ds)
  else if hasAxisBit r.eventType then
    let axisValue : ℚ := axisNormalized r.value
    if r.number = 0 then
      if axisValue < negHalf then
        axisDirStep mappings st "axis_0_LEFT" "LEFT"
      else if axisValue > posHalf then
        axisDirStep mappings st "axis_0_RIGHT" "RIGHT"
      else
        (popState (popState st "axis_0_LEFT") "axis_0_RIGHT", [])
    else if r.number = 1 then
      if axisValue < negHalf then
        axisDirStep mappings st "axis_1_UP" "UP"
      else if axisValue > posHalf then
        axisDirStep mappings st "axis_1_DOWN" "DOWN"
      else
        (popState (popState st "axis_1_UP") "axis_1_DOWN", [])
    else (st, [])
  else (st, [])

/-- What one `self.js_device.read(EVENT_SIZE)` call yields inside
`process_controller_input` (src/__init__.py lines 253-259): a full
`EVENT_SIZE`-byte record, a short read of fewer than `EVENT_SIZE` bytes
(zero included — `if not data: break` and `if len(data) < EVENT_SIZE:
break` behave alike), or an `OSError`/`IOError` caught by the
surrounding `except` clause. -/
inductive ReadResult where
  | full (r : JsRecord)
  | short (nbytes : Nat)
  | ioError
deriving DecidableEq

/-- `ControllerRemapper.process_controller_input`
(src/__init__.py lines 249-332) over the sequence of read results of one
poll tick: drain full records, stop at the first short read (or at the
end of the list — a non-blocking read with nothing buffered), swallow
I/O errors. -/
def processTick (mappings : List (String × String)) (st : StateMap) :
    List ReadResult → StateMap × List String
  | [] => (st, [])
  | .short _ :: _ => (st, [])
  | .ioError :: _ => (st, [])
  | .full r :: rest =>
    let step := processRecord mappings st r
    let next := processTick mappings step.1 rest
    (next.1, step.2 ++ next.2)

/-- What the configuration file yields on one load: the file can be
absent (`os.path.exists` false), unreadable or unparsable (the bare
`except` around `json.load`), or parse to a flat str -> str document.
`json.dump` of a str -> str dict always writes a document `json.load`
parses back to an equal dict, so the stored document is modelled as the
mapping itself. -/
inductive ConfigFile where
  | missing
  | unreadable
  | parsed (doc : List (String × String))
deriving DecidableEq

/-- `ControllerRemapper.load_config` (src/__init__.py lines 109-116):
return the parsed document, or a copy of `DEFAULT_MAPPINGS` when the
file is missing or `open`/`json.load` raises. -/
def load_config : ConfigFile → List (String × String)
  | .missing => DEFAULT_MAPPINGS
  | .unreadable => DEFAULT_MAPPINGS
  | .parsed doc => doc

/-- `ControllerRemapper.save_config` (src/__init__.py lines 118-120):
overwrite the file with `json.dump(self.mappings, f, indent=2)`; the file
afterwards parses back to the saved mapping. -/
def save_config (mappings : List (String × String)) : ConfigFile :=
  .parsed mappings

/-- The fields of a `ControllerRemapper` the input loop touches
(src/__init__.py lines 100-107); `js_device`, `thread` and `event_queue`
carry no mapping or edge-detection state and are omitted. -/
structure Remapper where
  mappings : List (String × String)
  running : Bool
  last_state : StateMap
deriving DecidableEq

/-- `ControllerRemapper.__init__` (src/__init__.py lines 100-107):
`self.mappings = self.load_config()`, `self.running = False`,
`self.last_state = {}`. -/
def mkRemapper (cfg : ConfigFile) : Remapper :=
  ⟨load_config cfg, false, []⟩

/-- `ControllerRemapper.start` (src/__init__.py lines 352-359): a no-op
when already running, otherwise set `running` and spawn `run_loop`.
Neither branch touches `last_state`. -/
def remapperStart (r : Remapper) : Remapper :=
  if r.running then r else { r with running := true }

/-- `ControllerRemapper.stop` (src/__init__.py lines 361-365): clear
`running` and join the thread. `last_state` is not touched. -/
def remapperStop (r : Remapper) : Remapper :=
  { r with running := false }

/-- The polling phase of `ControllerRemapper.run_loop`
(src/__init__.py lines 334-342) after `detect_controller` succeeds, over
a schedule of poll ticks (one list of read results per iteration of
`while self.running:`): each tick runs `process_controller_input` on the
`last_state` the loop entered with — `run_loop` performs no reset of
`last_state` before or during the loop. Returns the remapper together
with all dispatched combos. -/
def runLoopPolling (r : Remapper) (ticks : List (List ReadResult)) :
    Remapper × List String :=
  ticks.foldl
    (fun acc tick =>
      let step := processTick acc.1.mappings acc.1.last_state tick
      ({ acc.1 with last_state := step.1 }, acc.2 ++ step.2))
    (r, [])

theorem find?_filterOutKey_other (ps : List (String × Bool)) (k k' : String)
    (h : k' ≠ k) :
    List.find? (fun p => p.1 = k') (List.filter (fun p => ¬ p.1 = k) ps) =
      List.find? (fun p => p.1 = k') ps := by
  induction ps with
  | nil => rfl
  | cons p ps ih =>
    by_cases hp : p.1 = k
    · have hq : ¬ p.1 = k' := by
        intro hh
        exact h (hh ▸ hp)
      simp only [List.filter_cons]
      rw [if_neg (by simpa using hp)]
      rw [List.find?_cons_of_neg _ (by simpa using hq)]
      exact ih
    · by_cases hq : p.1 = k'
      · simp only [List.filter_cons]
        rw [if_pos (by simpa using hp)]
        rw [List.find?_cons_of_pos _ (by simpa using hq),
            List.find?_cons_of_pos _ (by simpa using hq)]
      · simp only [List.filter_cons]
        rw [if_pos (by simpa using hp)]
        rw [List.find?_cons_of_neg _ (by simpa using hq),
            List.find?_cons_of_neg _ (by simpa using hq)]
        exact ih

theorem find?_filterOutKey_same (ps : List (String × Bool)) (k : String) :
    List.find? (fun p => p.1 = k) (List.filter (fun p => ¬ p.1 = k) ps) =
      none := by
  induction ps with
  | nil => rfl
  | cons p ps ih =>
    by_cases hp : p.1 = k
    · simp only [List.filter_cons]
      rw [if_neg (by simpa using hp)]
      exact ih
    · simp only [List.filter_cons]
      rw [if_pos (by simpa using hp)]
      rw [List.find?_cons_of_neg _ (by simpa using hp)]
      exact ih

theorem getState_setState_same (st : StateMap) (k : String) (b : Bool) :
    getState (setState st k b) k = b := by
  simp only [getState, setState]
  rw [List.find?_cons_of_pos _ (by simp)]

theorem getState_setState_other (st : StateMap) (k k' : String)
    (b : Bool) (h : k' ≠ k) :
    getState (setState st k b) k' = getState st k' := by
  simp only [getState, setState]
  rw [List.find?_cons_of_neg _ (by simpa using fun hh => h hh.symm)]
  rw [find?_filterOutKey_other st k k' h]

theorem getState_popState_same (st : StateMap) (k : String) :
    getState (popState st k) k = false := by
  simp only [getState, popState]
  rw [find?_filterOutKey_same st k]

theorem getState_popState_other (st : StateMap) (k k' : String) (h : k' ≠ k) :
    getState (popState st k) k' = getState st k' := by
  simp only [getState, popState]
  rw [find?_filterOutKey_other st k k' h]

theorem or_getLast?_cons {α : Type} (a : α) (l : List α) (k : Option α) :
    Option.or (a :: l).getLast? k = Option.or l.getLast? (some a) := by
  cases l with
  | nil => simp
  | cons b bs =>
    rw [List.getLast?_cons_cons]
    obtain ⟨x, hx⟩ := Option.isSome_iff_exists.mp
      (List.getLast?_isSome.mpr (List.cons_ne_nil b bs))
    rw [hx]
    rfl

theorem foldl_parseStep_eq (parts : List String) :
    ∀ (mods : List String) (k : Option String),
    parts.foldl parseStep (mods, k) =
      (mods ++ (((parts.map normTok).filter isModTok).map modName),
       Option.or
         (((parts.map normTok).filter (fun p => ¬ isModTok p)).getLast?)
         k) := by
  induction parts with
  | nil => intro mods k; simp
  | cons p ps ih =>
    intro mods k
    simp only [List.foldl_cons, List.map_cons]
    by_cases h1 : normTok p = "ctrl" ∨ normTok p = "control"
    · have hmod : isModTok (normTok p) = true := by
        rcases h1 with h | h <;> simp [isModTok, h]
      have hname : modName (normTok p) = "ctrl" := by
        rcases h1 with h | h <;> simp [modName, h]
      have hstep : parseStep (mods, k) p = (mods ++ ["ctrl"], k) := by
        simp [parseStep, h1]
      rw [hstep, ih]
      rw [List.filter_cons_of_pos (by simpa using hmod),
          List.filter_cons_of_neg (by simp [hmod])]
      simp [hname]
    · by_cases h2 : normTok p = "shift"
      · have hstep : parseStep (mods, k) p = (mods ++ ["shift"], k) := by
          simp [parseStep, h1, h2]
        rw [hstep, ih]
        have hmod : isModTok (normTok p) = true := by simp [isModTok, h2]
        rw [List.filter_cons_of_pos (by simpa using hmod),
            List.filter_cons_of_neg (by simp [hmod])]
        have hname : modName (normTok p) = "shift" := by
          simp only [h2]
          rfl
        simp [hname]
      · by_cases h3 : normTok p = "alt"
        · have hstep : parseStep (mods, k) p = (mods ++ ["alt"], k) := by
            simp [parseStep, h1, h2, h3]
          rw [hstep, ih]
          have hmod : isModTok (normTok p) = true := by simp [isModTok, h3]
          rw [List.filter_cons_of_pos (by simpa using hmod),
              List.filter_cons_of_neg (by simp [hmod])]
          have hname : modName (normTok p) = "alt" := by
            simp only [h3]
            rfl
          simp [hname]
        · have hmod : isModTok (normTok p) = false := by
            simp [isModTok]
            push_neg at h1
            exact ⟨h1.1, h1.2, h2, h3⟩
          have hstep : parseStep (mods, k) p = (mods, some (normTok p)) := by
            simp [parseStep, h1, h2, h3]
          rw [hstep, ih]
          rw [List.filter_cons_of_neg (by simp [hmod]),
              List.filter_cons_of_pos (by simp [hmod])]
          rw [or_getLast?_cons]

/-- `parse_key_combination` in closed form: the modifiers list collects
`"ctrl"`/`"shift"`/`"alt"` for each recognised modifier token in order,
and the key is the last stripped-and-lowercased non-modifier token, if
any. -/
theorem parseKeyCombination_eq (combo : String) :
    parseKeyCombination combo =
      ((((pySplitPlus combo).map normTok).filter isModTok).map modName,
       (((pySplitPlus combo).map normTok).filter
         (fun p => ¬ isModTok p)).getLast?) := by
  rw [parseKeyCombination, foldl_parseStep_eq]
  simp

theorem and_or_of_and_eq_zero (t c : Nat) (h : 128 &&& c = 0) :
    (t ||| 128) &&& c = t &&& c := by
  apply Nat.eq_of_testBit_eq
  intro i
  have hb := congrArg (fun n => n.testBit i) h
  simp only [Nat.testBit_land, Nat.testBit_lor, Nat.zero_testBit] at hb ⊢
  cases h1 : t.testBit i <;> cases h2 : Nat.testBit 128 i <;>
    cases h3 : c.testBit i <;> simp_all

theorem hasButtonBit_or_init (t : Nat) :
    hasButtonBit (t ||| JS_EVENT_INIT) = hasButtonBit t := by
  simp only [hasButtonBit, JS_EVENT_INIT, JS_EVENT_BUTTON,
    and_or_of_and_eq_zero t 0x01 (by decide)]

theorem hasAxisBit_or_init (t : Nat) :
    hasAxisBit (t ||| JS_EVENT_INIT) = hasAxisBit t := by
  simp only [hasAxisBit, JS_EVENT_INIT, JS_EVENT_AXIS,
    and_or_of_and_eq_zero t 0x02 (by decide)]

theorem runLoopPolling_dispatch_append (ticks : List (List ReadResult)) :
    ∀ (r : Remapper) (d : List String),
    ticks.foldl
      (fun acc tick =>
        let step := processTick acc.1.mappings acc.1.last_state tick
        ({ acc.1 with last_state := step.1 }, acc.2 ++ step.2))
      (r, d) =
      ((runLoopPolling r ticks).1, d ++ (runLoopPolling r ticks).2) := by
  induction ticks with
  | nil => intro r d; simp [runLoopPolling]
  | cons tick ticks ih =>
    intro r d
    simp only [runLoopPolling, List.foldl_cons]
    rw [ih, ih]
    simp

/-- `run_loop` processes the first poll tick of a polling phase against
the `last_state` the remapper already holds; nothing empties the map
between `start` and the first `process_controller_input` call. -/
theorem runLoopPolling_cons (r : Remapper) (tick : List ReadResult)
    (ticks : List (List ReadResult)) :
    runLoopPolling r (tick :: ticks) =
      (let step := processTick r.mappings r.last_state tick
       let mid : Remapper := { r with last_state := step.1 }
       ((runLoopPolling mid ticks).1,
        step.2 ++ (runLoopPolling mid ticks).2)) := by
  simp only [runLoopPolling, List.foldl_cons]
  rw [runLoopPolling_dispatch_append]
  simp [runLoopPolling]

theorem lookupButton_ne_empty {n : Nat} {name : String}
    (h : lookupButton n = some name) : name ≠ "" := by
  unfold lookupButton at h
  cases hf : controllerButtons.find? (fun p => p.1 = n) with
  | none => rw [hf] at h; cases h
  | some p =>
    rw [hf] at h
    cases h
    have hmem := List.mem_of_find?_eq_some hf
    fin_cases hmem <;> decide

theorem dispatchOf_eq {m : List (String × String)} {name combo : String}
    (hcombo : lookupMap m name = some combo) (hne : combo ≠ "") :
    dispatchOf m name = [combo] := by
  simp [dispatchOf, hcombo, truthyCombo, hne]

/-- C1: a button record with the button bit set and a non-zero value,
for a button number named in `CONTROLLER_BUTTONS` and carrying a
(nonempty) mapped combo, dispatches that combo exactly when the tracked
state `button_<n>` was previously false or absent; processing sets the
tracked state to true, and processing a further such record afterwards
dispatches nothing — one dispatch per inactive-to-active transition. -/
theorem claim_C1_button_edge_dispatch
    (m : List (String × String)) (st : StateMap) (r : JsRecord)
    (name combo : String)
    (hbit : hasButtonBit r.eventType = true)
    (hval : r.value ≠ 0)
    (hname : lookupButton r.number = some name)
    (hcombo : lookupMap m name = some combo)
    (hne : combo ≠ "") :
    ((processRecord m st r).2 =
        if getState st ("button_" ++ toString r.number) then [] else [combo])
    ∧ getState (processRecord m st r).1 ("button_" ++ toString r.number) = true
    ∧ (processRecord m (processRecord m st r).1 r).2 = [] := by
  have hnamene : name ≠ "" := lookupButton_ne_empty hname
  have hd := dispatchOf_eq hcombo hne
  simp only [processRecord, hbit, if_true, hname]
  refine ⟨?_, ?_, ?_⟩
  · by_cases hg : getState st ("button_" ++ toString r.number) = true
    · simp [hg, hval, hnamene]
    · simp [hg, hval, hnamene, hd]
  · rw [getState_setState_same]
    simpa using hval
  · have hg1 : getState
        (setState st ("button_" ++ toString r.number) (!decide (r.value = 0)))
        ("button_" ++ toString r.number) = true := by
      rw [getState_setState_same]
      simpa using hval
    simp [hg1]

/-- C2: parsing a combo splits on `+`, strips and lowercases every
token, collects `ctrl`/`control`, `shift` and `alt` as the modifiers
(stated as membership, under which duplicates collapse), and returns the
last non-modifier token as the primary key — later non-modifier tokens
overwrite earlier ones; `"Ctrl+Shift+z"` parses to modifiers
`{ctrl, shift}` with key `"z"`, and `"Return"` to no modifiers with key
`"return"`. -/
theorem claim_C2_parse_key_combination (combo : String) :
    (∀ s, s ∈ (parseKeyCombination combo).1 ↔
      ((s = "ctrl" ∧ ∃ t ∈ pySplitPlus combo,
          normTok t = "ctrl" ∨ normTok t = "control") ∨
       (s = "shift" ∧ ∃ t ∈ pySplitPlus combo, normTok t = "shift") ∨
       (s = "alt" ∧ ∃ t ∈ pySplitPlus combo, normTok t = "alt")))
    ∧ (parseKeyCombination combo).2 =
        (((pySplitPlus combo).map normTok).filter
          (fun p => ¬ isModTok p)).getLast?
    ∧ parseKeyCombination "Ctrl+Shift+z" = (["ctrl", "shift"], some "z")
    ∧ parseKeyCombination "Return" = ([], some "return") := by
  refine ⟨?_, ?_, by decide, by decide⟩
  · intro s
    rw [parseKeyCombination_eq]
    simp only [List.mem_map, List.mem_filter]
    constructor
    · rintro ⟨p, ⟨⟨t, ht, rfl⟩, hmod⟩, rfl⟩
      have hmod' : normTok t = "ctrl" ∨ normTok t = "control" ∨
          normTok t = "shift" ∨ normTok t = "alt" := by
        simpa [isModTok] using hmod
      rcases hmod' with h | h | h | h
      · exact Or.inl ⟨by simp [modName, h], t, ht, Or.inl h⟩
      · exact Or.inl ⟨by simp [modName, h], t, ht, Or.inr h⟩
      · refine Or.inr (Or.inl ⟨?_, t, ht, h⟩)
        rw [h]
        rfl
      · refine Or.inr (Or.inr ⟨?_, t, ht, h⟩)
        rw [h]
        rfl
    · rintro (⟨rfl, t, ht, h | h⟩ | ⟨rfl, t, ht, h⟩ | ⟨rfl, t, ht, h⟩)
      · exact ⟨normTok t, ⟨⟨t, ht, rfl⟩, by simp [isModTok, h]⟩, by simp [modName, h]⟩
      · exact ⟨normTok t, ⟨⟨t, ht, rfl⟩, by simp [isModTok, h]⟩, by simp [modName, h]⟩
      · exact ⟨normTok t, ⟨⟨t, ht, rfl⟩, by simp [isModTok, h]⟩, by rw [h]; rfl⟩
      · exact ⟨normTok t, ⟨⟨t, ht, rfl⟩, by simp [isModTok, h]⟩, by rw [h]; rfl⟩
  · rw [parseKeyCombination_eq]

/-- C3: an axis record on axis 0 or axis 1 compares the normalised
value `value / 32767` with `-0.5` and `0.5` (`negHalf`/`posHalf`;
`negHalf_eq` and `posHalf_eq` restate them as `-(1/2)` and `1/2`).  On
axis 0, below `-0.5` the LEFT combo is dispatched exactly on the rising
edge of `axis_0_LEFT`, above `0.5` symmetrically RIGHT on
`axis_0_RIGHT`; on axis 1, below `-0.5` UP is dispatched on the rising
edge of `axis_1_UP`, above `0.5` DOWN on `axis_1_DOWN`.  On either axis
anything in `[-0.5, 0.5]` is deadzone: both direction flags of that
axis are cleared and nothing is dispatched.  For the sequence of the
spec, normalised values `[-1.0, -0.6, 0.0, 0.6]` (raw values
`-32767, -19660, 0, 19660`) on axis 0, LEFT fires once at the first
record, RIGHT once at the last, and the `0.0` record dispatches nothing
while clearing both flags; the same raw sequence on axis 1 fires UP
once and DOWN once. -/
theorem claim_C3_axis_threshold_edges
    (m : List (String × String)) (st : StateMap) (r : JsRecord)
    (lc rc uc dc : String)
    (hbtn : hasButtonBit r.eventType = false)
    (haxis : hasAxisBit r.eventType = true)
    (hl : lookupMap m "LEFT" = some lc) (hlne : lc ≠ "")
    (hr : lookupMap m "RIGHT" = some rc) (hrne : rc ≠ "")
    (hu : lookupMap m "UP" = some uc) (hune : uc ≠ "")
    (hd : lookupMap m "DOWN" = some dc) (hdne : dc ≠ "") :
    (r.number = 0 →
      (axisNormalized r.value < negHalf →
         processRecord m st r =
           (setState st "axis_0_LEFT" true,
            if getState st "axis_0_LEFT" then [] else [lc]))
      ∧ (axisNormalized r.value > posHalf →
         processRecord m st r =
           (setState st "axis_0_RIGHT" true,
            if getState st "axis_0_RIGHT" then [] else [rc]))
      ∧ (negHalf ≤ axisNormalized r.value → axisNormalized r.value ≤ posHalf →
         (processRecord m st r).2 = []
         ∧ getState (processRecord m st r).1 "axis_0_LEFT" = false
         ∧ getState (processRecord m st r).1 "axis_0_RIGHT" = false))
    ∧ (r.number = 1 →
      (axisNormalized r.value < negHalf →
         processRecord m st r =
           (setState st "axis_1_UP" true,
            if getState st "axis_1_UP" then [] else [uc]))
      ∧ (axisNormalized r.value > posHalf →
         processRecord m st r =
           (setState st "axis_1_DOWN" true,
            if getState st "axis_1_DOWN" then [] else [dc]))
      ∧ (negHalf ≤ axisNormalized r.value → axisNormalized r.value ≤ posHalf →
         (processRecord m st r).2 = []
         ∧ getState (processRecord m st r).1 "axis_1_UP" = false
         ∧ getState (processRecord m st r).1 "axis_1_DOWN" = false))
    ∧ (processTick DEFAULT_MAPPINGS []
        [.full ⟨0, -32767, 2, 0⟩]).2 = ["Left"]
    ∧ (processTick DEFAULT_MAPPINGS []
        [.full ⟨0, -32767, 2, 0⟩, .full ⟨0, -19660, 2, 0⟩]).2 = ["Left"]
    ∧ (processTick DEFAULT_MAPPINGS []
        [.full ⟨0, -32767, 2, 0⟩, .full ⟨0, -19660, 2, 0⟩,
         .full ⟨0, 0, 2, 0⟩]).2 = ["Left"]
    ∧ (processTick DEFAULT_MAPPINGS []
        [.full ⟨0, -32767, 2, 0⟩, .full ⟨0, -19660, 2, 0⟩,
         .full ⟨0, 0, 2, 0⟩]).1 = []
    ∧ (processTick DEFAULT_MAPPINGS []
        [.full ⟨0, -32767, 2, 0⟩, .full ⟨0, -19660, 2, 0⟩,
         .full ⟨0, 0, 2, 0⟩, .full ⟨0, 19660, 2, 0⟩]).2 = ["Left", "Right"]
    ∧ (processTick DEFAULT_MAPPINGS []
        [.full ⟨0, -32767, 2, 1⟩, .full ⟨0, -19660, 2, 1⟩,
         .full ⟨0, 0, 2, 1⟩, .full ⟨0, 19660, 2, 1⟩]).2 = ["Up", "Down"] := by
  have hld := dispatchOf_eq hl hlne
  have hrd := dispatchOf_eq hr hrne
  have hud := dispatchOf_eq hu hune
  have hdd := dispatchOf_eq hd hdne
  refine ⟨?_, ?_, by decide, by decide, by decide, by decide, by decide,
    by decide⟩
  · intro h0
    refine ⟨?_, ?_, ?_⟩
    · intro hlt
      simp only [processRecord, hbtn, haxis, h0, Bool.false_eq_true, if_false,
        if_true, if_pos hlt, axisDirStep, hld]
    · intro hgt
      have hnlt : ¬ axisNormalized r.value < negHalf := by
        rw [not_lt]
        calc negHalf ≤ posHalf := by rw [negHalf_eq, posHalf_eq]; norm_num
          _ ≤ axisNormalized r.value := le_of_lt hgt
      simp only [processRecord, hbtn, haxis, h0, Bool.false_eq_true, if_false,
        if_true, if_neg hnlt, if_pos hgt, axisDirStep, hrd]
    · intro hge hle
      have hnlt : ¬ axisNormalized r.value < negHalf := not_lt.mpr hge
      have hngt : ¬ axisNormalized r.value > posHalf := not_lt.mpr hle
      simp only [processRecord, hbtn, haxis, h0, Bool.false_eq_true, if_false,
        if_true, if_neg hnlt, if_neg hngt]
      refine ⟨trivial, ?_, ?_⟩
      · rw [getState_popState_other _ _ _ (by decide), getState_popState_same]
      · rw [getState_popState_same]
  · intro h1
    have hne10 : ¬ (1 : Nat) = 0 := by decide
    refine ⟨?_, ?_, ?_⟩
    · intro hlt
      simp only [processRecord, hbtn, haxis, h1, Bool.false_eq_true, if_false,
        if_true, if_neg hne10, if_pos hlt, axisDirStep, hud]
    · intro hgt
      have hnlt : ¬ axisNormalized r.value < negHalf := by
        rw [not_lt]
        calc negHalf ≤ posHalf := by rw [negHalf_eq, posHalf_eq]; norm_num
          _ ≤ axisNormalized r.value := le_of_lt hgt
      simp only [processRecord, hbtn, haxis, h1, Bool.false_eq_true, if_false,
        if_true, if_neg hne10, if_neg hnlt, if_pos hgt, axisDirStep, hdd]
    · intro hge hle
      have hnlt : ¬ axisNormalized r.value < negHalf := not_lt.mpr hge
      have hngt : ¬ axisNormalized r.value > posHalf := not_lt.mpr hle
      simp only [processRecord, hbtn, haxis, h1, Bool.false_eq_true, if_false,
        if_true, if_neg hne10, if_neg hnlt, if_neg hngt]
      refine ⟨trivial, ?_, ?_⟩
      · rw [getState_popState_other _ _ _ (by decide), getState_popState_same]
      · rw [getState_popState_same]

/-- C3 witness: the first record of the spec sequence (raw value
`-32767`, normalised `-1.0`), once on axis 0 (dispatching LEFT) and once
on axis 1 (dispatching UP), against the default mappings and empty
state. -/
theorem claim_C3_axis_threshold_edges_witness :
    hasButtonBit (2 : Nat) = false ∧ hasAxisBit (2 : Nat) = true
    ∧ lookupMap DEFAULT_MAPPINGS "LEFT" = some "Left"
    ∧ lookupMap DEFAULT_MAPPINGS "RIGHT" = some "Right"
    ∧ lookupMap DEFAULT_MAPPINGS "UP" = some "Up"
    ∧ lookupMap DEFAULT_MAPPINGS "DOWN" = some "Down"
    ∧ axisNormalized (-32767) < negHalf
    ∧ processRecord DEFAULT_MAPPINGS [] ⟨0, -32767, 2, 0⟩ =
        (setState [] "axis_0_LEFT" true,
         if getState [] "axis_0_LEFT" then [] else ["Left"])
    ∧ processRecord DEFAULT_MAPPINGS [] ⟨0, -32767, 2, 1⟩ =
        (setState [] "axis_1_UP" true,
         if getState [] "axis_1_UP" then [] else ["Up"]) :=
  ⟨by decide, by decide, by decide, by decide, by decide, by decide, by decide,
   ((claim_C3_axis_threshold_edges DEFAULT_MAPPINGS [] ⟨0, -32767, 2, 0⟩
       "Left" "Right" "Up" "Down" (by decide) (by decide) (by decide)
       (by decide) (by decide) (by decide) (by decide) (by decide)
       (by decide) (by decide)).1 rfl).1 (by decide),
   ((claim_C3_axis_threshold_edges DEFAULT_MAPPINGS [] ⟨0, -32767, 2, 1⟩
       "Left" "Right" "Up" "Down" (by decide) (by decide) (by decide)
       (by decide) (by decide) (by decide) (by decide) (by decide)
       (by decide) (by decide)).2.1 rfl).1 (by decide)⟩

/-- C4 counterexample: the claim says `last_state` is reset to empty on
every entry to the polling loop.  It is not: construct a fresh remapper
(defaults, empty state), start it, press button 3 in the first polling
run (dispatching "x" and leaving `button_3 = true`), stop, start again —
the remapper entering the second polling run still carries
`button_3 = true`, and the same press record now dispatches nothing,
where a reset-to-empty would dispatch "x" again. -/
theorem claim_C4_counterexample :
    (runLoopPolling (remapperStart (mkRemapper .missing))
      [[.full ⟨0, 1, 1, 3⟩]]).2 = ["x"]
    ∧ (remapperStart (remapperStop
        (runLoopPolling (remapperStart (mkRemapper .missing))
          [[.full ⟨0, 1, 1, 3⟩]]).1)).last_state = [("button_3", true)]
    ∧ (runLoopPolling
        (remapperStart (remapperStop
          (runLoopPolling (remapperStart (mkRemapper .missing))
            [[.full ⟨0, 1, 1, 3⟩]]).1))
        [[.full ⟨0, 1, 1, 3⟩]]).2 = [] := by
  decide

/-- C4 amended: `last_state` is empty only when the remapper object is
constructed; `start`, `stop` and the polling loop never reset it, so a
polling run begun after a restart processes its first tick against the
state tracked before the restart. -/
theorem claim_C4_no_reset_on_restart (cfg : ConfigFile) (r : Remapper)
    (tick : List ReadResult) (ticks : List (List ReadResult)) :
    (mkRemapper cfg).last_state = []
    ∧ (remapperStart r).last_state = r.last_state
    ∧ (remapperStop r).last_state = r.last_state
    ∧ runLoopPolling r (tick :: ticks) =
        (let step := processTick r.mappings r.last_state tick
         let mid : Remapper := { r with last_state := step.1 }
         ((runLoopPolling mid ticks).1,
          step.2 ++ (runLoopPolling mid ticks).2)) := by
  refine ⟨rfl, ?_, rfl, runLoopPolling_cons r tick ticks⟩
  unfold remapperStart
  by_cases h : r.running = true
  · rw [if_pos h]
  · rw [if_neg h]

/-- C5: `load_config` with a missing, unreadable or unparsable
configuration file returns exactly the built-in default mapping — a
total function, so no error surfaces — and `DEFAULT_MAPPINGS` has the
fourteen identifier-to-combo entries, with distinct identifiers. -/
theorem claim_C5_load_fallback_defaults :
    load_config .missing = DEFAULT_MAPPINGS
    ∧ load_config .unreadable = DEFAULT_MAPPINGS
    ∧ DEFAULT_MAPPINGS.length = 14
    ∧ (DEFAULT_MAPPINGS.map Prod.fst).Nodup := by
  refine ⟨rfl, rfl, rfl, by decide⟩

/-- C6: saving a mapping document and loading it back yields a mapping
with the same value at every key (order-independent key/value
equality) — indeed the same document.  `json.dump` of a flat str -> str
dict writes a file `json.load` parses back to an equal dict, which the
`ConfigFile` model reflects; on top of that, `save_config` stores
`self.mappings` verbatim and `load_config` returns the parsed document
verbatim. -/
theorem claim_C6_save_load_roundtrip (m : List (String × String)) :
    load_config (save_config m) = m
    ∧ ∀ k, lookupMap (load_config (save_config m)) k = lookupMap m k := by
  exact ⟨rfl, fun _ => rfl⟩

/-- C7: when the parsed primary key resolves to no Qt key code —
`get_key_code` knows only single letters/digits and the named special
keys — `send_key_event` returns without synthesizing any event (and,
being a total function, raises nothing); in particular
`"Ctrl+Unknown123"` yields no dispatch. -/
theorem claim_C7_unresolved_key_no_dispatch
    (combo k : String) (mods : List String)
    (hparse : parseKeyCombination combo = (mods, some k))
    (hres : getKeyCode k = none) :
    sendKeyEvent combo = none
    ∧ getKeyCode "unknown123" = none
    ∧ sendKeyEvent "Ctrl+Unknown123" = none := by
  refine ⟨?_, by decide, by decide⟩
  unfold sendKeyEvent
  by_cases hc : combo = ""
  · rw [if_pos hc]
  · rw [if_neg hc]
    by_cases hk : k = ""
    · simp [hparse, hk]
    · simp [hparse, hk, hres]

/-- C7 witness: `"Ctrl+Unknown123"` parses to key `"unknown123"`, which
resolves to no key code, so nothing is dispatched. -/
theorem claim_C7_unresolved_key_no_dispatch_witness :
    parseKeyCombination "Ctrl+Unknown123" = (["ctrl"], some "unknown123")
    ∧ getKeyCode "unknown123" = none
    ∧ (sendKeyEvent "Ctrl+Unknown123" = none
       ∧ getKeyCode "unknown123" = none
       ∧ sendKeyEvent "Ctrl+Unknown123" = none) :=
  ⟨by decide, by decide,
   claim_C7_unresolved_key_no_dispatch "Ctrl+Unknown123" "unknown123" ["ctrl"]
     (by decide) (by decide)⟩

/-- C8: a read shorter than `EVENT_SIZE` (zero bytes included) ends the
poll tick: records fully read earlier in the tick are processed
normally, the short read itself changes no state and dispatches nothing,
whatever bytes follow are not examined, and no error is raised (the
model is a total function). -/
theorem claim_C8_short_read_halts_tick
    (m : List (String × String)) (st : StateMap)
    (frs : List JsRecord) (n : Nat) (rest : List ReadResult)
    (hn : n < EVENT_SIZE) :
    processTick m st (frs.map ReadResult.full ++ ReadResult.short n :: rest) =
      processTick m st (frs.map ReadResult.full) := by
  induction frs generalizing st with
  | nil => rfl
  | cons r frs ih =>
    simp only [List.map_cons, List.cons_append, processTick, List.append_eq]
    rw [ih]

/-- C8 witness: one full button press, then a zero-byte read, then a
further full record that the tick never reaches. -/
theorem claim_C8_short_read_halts_tick_witness :
    0 < EVENT_SIZE
    ∧ processTick DEFAULT_MAPPINGS []
        ([⟨0, 1, 1, 3⟩].map ReadResult.full ++
          ReadResult.short 0 :: [ReadResult.full ⟨0, 1, 1, 2⟩]) =
      processTick DEFAULT_MAPPINGS [] ([⟨0, 1, 1, 3⟩].map ReadResult.full) :=
  ⟨by decide,
   claim_C8_short_read_halts_tick DEFAULT_MAPPINGS [] [⟨0, 1, 1, 3⟩] 0
     [ReadResult.full ⟨0, 1, 1, 2⟩] (by decide)⟩

/-- C9: setting the init bit `0x80` on the type of a record changes nothing:
the button branch runs exactly when the button bit is set and the axis
branch exactly when the axis bit is set (and the button bit is not),
init bit or not. -/
theorem claim_C9_init_bit_ignored
    (m : List (String × String)) (st : StateMap) (r : JsRecord) :
    processRecord m st { r with eventType := r.eventType ||| JS_EVENT_INIT } =
      processRecord m st r := by
  simp only [processRecord, hasButtonBit_or_init, hasAxisBit_or_init]

/-- C10: a combo whose non-modifier tokens all strip to the empty string
never dispatches: `" "` (the default mapping of button A) parses to the
empty-string key, which the Python test `if key:` rejects before key-code
resolution — and `get_key_code("")` would resolve to nothing anyway.  A
literal space must be written `"space"` to dispatch. -/
theorem claim_C10_blank_key_never_dispatches
    (combo : String)
    (hall : ∀ t ∈ pySplitPlus combo,
        isModTok (normTok t) = false → normTok t = "") :
    sendKeyEvent combo = none
    ∧ lookupMap DEFAULT_MAPPINGS "A" = some " "
    ∧ parseKeyCombination " " = ([], some "")
    ∧ getKeyCode "" = none
    ∧ sendKeyEvent " " = none
    ∧ sendKeyEvent "space" = some ⟨false, false, false, 0x20⟩ := by
  refine ⟨?_, by decide, by decide, by decide, by decide, by decide⟩
  unfold sendKeyEvent
  by_cases hc : combo = ""
  · rw [if_pos hc]
  · rw [if_neg hc]
    cases hk : (parseKeyCombination combo).2 with
    | none => simp [hk]
    | some q =>
      have hq : q = "" := by
        have hk' : ((((pySplitPlus combo).map normTok).filter
            (fun p => ¬ isModTok p)).getLast?) = some q := by
          have hpe := parseKeyCombination_eq combo
          rw [hpe] at hk
          exact hk
        have hmem : q ∈ (((pySplitPlus combo).map normTok).filter
            fun p => ¬ isModTok p) := by
          have hopt : q ∈ (((pySplitPlus combo).map normTok).filter
              fun p => ¬ isModTok p).getLast? := hk'
          obtain ⟨hne, heq⟩ := List.mem_getLast?_eq_getLast hopt
          rw [heq]
          exact List.getLast_mem hne
        rw [List.mem_filter] at hmem
        obtain ⟨hmap, hnm⟩ := hmem
        obtain ⟨t, ht, rfl⟩ := List.mem_map.mp hmap
        refine hall t ht ?_
        simpa using hnm
      simp [hk, hq]

/-- C10 witness: the default combo of button A, a single space. -/
theorem claim_C10_blank_key_never_dispatches_witness :
    (∀ t ∈ pySplitPlus " ",
        isModTok (normTok t) = false → normTok t = "")
    ∧ (sendKeyEvent " " = none
       ∧ lookupMap DEFAULT_MAPPINGS "A" = some " "
       ∧ parseKeyCombination " " = ([], some "")
       ∧ getKeyCode "" = none
       ∧ sendKeyEvent " " = none
       ∧ sendKeyEvent "space" = some ⟨false, false, false, 0x20⟩) :=
  ⟨by decide, claim_C10_blank_key_never_dispatches " " (by decide)⟩

/-- C1 witness: button 3 ("Y", mapped to "x" by the defaults), pressed
from the empty state. -/
theorem claim_C1_button_edge_dispatch_witness :
    hasButtonBit (1 : Nat) = true ∧ ((1 : Int) ≠ 0)
    ∧ lookupButton 3 = some "Y"
    ∧ lookupMap DEFAULT_MAPPINGS "Y" = some "x" ∧ ("x" : String) ≠ ""
    ∧ (((processRecord DEFAULT_MAPPINGS [] ⟨0, 1, 1, 3⟩).2 =
          if getState [] ("button_" ++ toString (3 : Nat)) then [] else ["x"])
       ∧ getState (processRecord DEFAULT_MAPPINGS [] ⟨0, 1, 1, 3⟩).1
           ("button_" ++ toString (3 : Nat)) = true
       ∧ (processRecord DEFAULT_MAPPINGS
            (processRecord DEFAULT_MAPPINGS [] ⟨0, 1, 1, 3⟩).1 ⟨0, 1, 1, 3⟩).2 = []) :=
  ⟨by decide, by decide, by decide, by decide, by decide,
   claim_C1_button_edge_dispatch DEFAULT_MAPPINGS [] ⟨0, 1, 1, 3⟩ "Y" "x"
     (by decide) (by decide) (by decide) (by decide) (by decide)⟩
